import Mathlib

/-!
Verification development for the ModPro media library (a moviepy fork with
Spanish field names: `inicia` = start, `fin` = end, `duracion` = duration).

The embedding covers the two subsystems the claims are about:

* the `Clip` time-window algebra of `src/moviepy/Clip.py`
  (`is_playing`, `fl`, `set_inicia`, `set_end`, `set_duration`, `subclip`),
* the buffered audio reader `FFMPEG_AudioReader` of
  `src/moviepy/audio/io/readers.py` (`read_chunk`, `seek`, `buffer_around`,
  `get_frame`), and the `AudioClip` constructions of
  `src/moviepy/audio/AudioClip.py` (`AudioArrayClip.make_frame`,
  `CompositeAudioClip.__init__`).

Modelling conventions:

* Python floats (seconds, sample values) are modelled as exact rationals `ℚ`;
  none of the claims hinges on floating-point rounding.
* Python `int(x)` / numpy `astype(int)` truncate toward zero: `pyint`.
* A decoded audio sample (one row, all channels) is a `List ℚ`; the decoder
  byte stream is modelled at sample granularity by an ideal infinite stream
  `source : ℕ → List ℚ`, `source i` being the decoded samples of index `i`
  after the fixed `1/2^(8*nbytes-1)` rescaling done by `read_chunk`
  (`np.fromstring` + reshape + rescale turn `nchannels*nbytes` raw bytes
  into one such row; the rescaling is a fixed bijection on values).
* The clip transforms are wrapped in decorators from `moviepy/decorators.py`
  (`@outplace`, `@apply_to_mask`, `@apply_to_audio`, `@convert_to_seconds`),
  a module that only exists outside `src/`.  Modelled from the spec: per the
  spec ("always return a new Clip; cascade to mask/audio with the same
  edit") and the docstrings ("Returns a copy of the clip ..."), they are
  embedded as pure functions returning a new record and mapping the same
  window edit over the optional `mask`/`audio` sub-clips.
  `@convert_to_seconds` is the identity on numeric times, the only times the
  claims use.  The `make_frame` closures themselves (pixel/sample payloads
  of `fl`) are opaque and not part of any window-field claim, so the window
  algebra is embedded on the window fields.
-/

/-- Python `int(x)` on a float: truncation toward zero
(`int(-0.5) == 0`, `int(1.9) == 1`). -/
def pyint (x : ℚ) : ℤ := if 0 ≤ x then ⌊x⌋ else ⌈x⌉

/-- Python `max(lst)` on a nonempty list of numbers (folding `max` from the
head; on `[]` Python raises, the default seed is never used by theorems). -/
def pymax (l : List ℚ) : ℚ := l.foldl max (l.headD 0)

/-! ## The Clip window model (`src/moviepy/Clip.py`)

`Clip.__init__` sets `inicia = 0`, `fin = None`, `duracion = None`.
`inicia` is numeric on every clip reachable through the embedded operations
(the constructor makes it `0` and no operation below writes `None` into it),
so it is modelled as a plain `ℚ`; `fin` and `duracion` are `Option ℚ`.
The dead `if self.inicia is None` branch of `set_end` is noted at its
definition. -/

structure Win where
  inicia : ℚ
  fin : Option ℚ
  duracion : Option ℚ
deriving DecidableEq, Repr

namespace Win

/-- The window produced by `Clip.__init__`:
`inicia = 0`, `fin = None`, `duracion = None`. -/
def init : Win := ⟨0, none, none⟩

/-- Scalar branch of `Clip.is_playing` (src/moviepy/Clip.py:349-352):
`(t >= self.inicia) and ((self.fin is None) or (t < self.fin))`. -/
def is_playing (w : Win) (t : ℚ) : Bool :=
  decide (w.inicia ≤ t) &&
    (match w.fin with
     | none => true
     | some f => decide (t < f))

/-- Vector branch of `Clip.is_playing` (src/moviepy/Clip.py:333-347) for a
numpy array `t`.  `none` models the scalar `False` returned by the two
short-circuits (`tmin >= self.fin`, `tmax < self.inicia`); `some v` models
the returned int vector `1*(t >= self.inicia)` multiplied elementwise by
`(t <= self.fin)` when `fin` is set.  (`t.min()`/`t.max()` raise on an empty
array; the head-seeded folds below are only used on nonempty lists.) -/
def is_playing_vec (w : Win) (ts : List ℚ) : Option (List ℤ) :=
  let tmin := ts.foldl min (ts.headD 0)
  let tmax := ts.foldl max (ts.headD 0)
  if (match w.fin with | some f => decide (f ≤ tmin) | none => false) then
    none
  else if tmax < w.inicia then
    none
  else
    some (ts.map fun t =>
      (if w.inicia ≤ t then (1 : ℤ) else 0) *
        (match w.fin with
         | none => 1
         | some f => if t ≤ f then 1 else 0))

/-- Window effect of `Clip.fl` (src/moviepy/Clip.py:136-140): the result is
a copy (via the `@outplace` `set_make_frame`) whose `duracion` and `fin`
are cleared when `keep_duration` is false. -/
def fl (w : Win) (keep_duration : Bool) : Win :=
  if keep_duration then w else { w with duracion := none, fin := none }

/-- `Clip.set_inicia` body (src/moviepy/Clip.py:242-246), on the copy made
by `@outplace`: set `inicia`, then update `fin` (when `duracion` is set and
`change_end`) or else `duracion` (when `fin` is set). -/
def set_inicia (w : Win) (t : ℚ) (change_end : Bool) : Win :=
  let w1 := { w with inicia := t }
  match w1.duracion, change_end with
  | some d, true => { w1 with fin := some (t + d) }
  | _, _ =>
    match w1.fin with
    | some f => { w1 with duracion := some (f - w1.inicia) }
    | none => w1

/-- `Clip.set_end` body (src/moviepy/Clip.py:262-267): set `fin := t` and
derive `duracion := fin - inicia`.  The source's `if self.inicia is None`
branch is dead under the model (`inicia` is always numeric; moreover that
branch reads the undefined name `newclip` and would raise `NameError`). -/
def set_end (w : Win) (t : ℚ) : Win :=
  { w with fin := some t, duracion := some (t - w.inicia) }

/-- The `change_end=True` path of `Clip.set_duration`
(src/moviepy/Clip.py:286-288) for a numeric `t`: set `duracion := t` and
derive `fin := inicia + t`. -/
def set_duration_ce (w : Win) (t : ℚ) : Win :=
  { w with duracion := some t, fin := some (w.inicia + t) }

/-- `Clip.set_duration` body (src/moviepy/Clip.py:286-293) for a numeric
`t`: set `duracion := t`; with `change_end` derive `fin := inicia + t`;
with `change_end = False` the source reads the undefined bare name
`duracion` and raises `NameError` before reaching `inicia = fin - t`. -/
def set_duration (w : Win) (t : ℚ) (change_end : Bool) : Except String Win :=
  if change_end then
    Except.ok (w.set_duration_ce t)
  else
    Except.error "NameError: name duracion is not defined"

/-- `Clip.subclip` (src/moviepy/Clip.py:381-409) on the window fields.
Order of the source: raise `ValueError` when `duracion` is known and
`t_inicia > duracion`; build `newclip` through `fl_time` (hence `fl` with
`keep_duration=False`, clearing `fin`/`duracion`); resolve `t_end` (omitted
`t_end` becomes `duracion` when known; a negative `t_end` becomes
`duracion + t_end` when `duracion` is known, and is otherwise kept after
merely *printing* an error message); finally, when the resolved `t_end` is
not `None`, set `duracion := t_end - t_inicia` and
`fin := inicia + duracion`. -/
def subclip (w : Win) (t_inicia : ℚ) (t_end : Option ℚ) : Except String Win :=
  if (match w.duracion with
      | some d => decide (d < t_inicia)
      | none => false) then
    Except.error "ValueError: t_inicia should be smaller than the clip's duracion"
  else
    let newclip := w.fl false
    let t_end2 : Option ℚ :=
      match t_end, w.duracion with
      | none, some d => some d
      | none, none => none
      | some e, dur =>
        if e < 0 then
          match dur with
          | none => some e  -- the source prints an error and keeps e < 0
          | some d => some (d + e)
        else some e
    match t_end2 with
    | none => Except.ok newclip
    | some e =>
      Except.ok { newclip with
        duracion := some (e - t_inicia)
        fin := some (newclip.inicia + (e - t_inicia)) }

/-- `duracion == fin - inicia` whenever both `fin` and `duracion` are set
(decidable form of the window invariant of the spec's data model). -/
def consistent (w : Win) : Bool :=
  match w.fin, w.duracion with
  | some f, some d => decide (d = f - w.inicia)
  | _, _ => true

end Win

/-- A clip together with its optional `mask` and `audio` sub-clips,
flattened to their window fields (the level at which the decorators
`@apply_to_mask` / `@apply_to_audio` cascade an edit). -/
structure Clip where
  win : Win
  mask : Option Win
  audio : Option Win
deriving DecidableEq, Repr

/-- Which sub-clips an `apply_to` argument names. -/
structure ApplyTo where
  mask : Bool
  audio : Bool
deriving DecidableEq, Repr

namespace Clip

/-- `Clip.fl` (src/moviepy/Clip.py:97-152): copy, clear `duracion`/`fin`
unless `keep_duration`, and re-apply `fl` (same `keep_duration`) to the
`mask`/`audio` sub-clips named by `apply_to` when present. -/
def fl (c : Clip) (apply_to : ApplyTo) (keep_duration : Bool) : Clip :=
  { win := c.win.fl keep_duration
    mask := if apply_to.mask then c.mask.map (Win.fl · keep_duration) else c.mask
    audio := if apply_to.audio then c.audio.map (Win.fl · keep_duration) else c.audio }

/-- `Clip.set_inicia` with its `@apply_to_mask`/`@apply_to_audio`
decorators: the same edit on the clip and on its sub-clips. -/
def set_inicia (c : Clip) (t : ℚ) (change_end : Bool) : Clip :=
  { win := c.win.set_inicia t change_end
    mask := c.mask.map (Win.set_inicia · t change_end)
    audio := c.audio.map (Win.set_inicia · t change_end) }

/-- `Clip.set_end` with its cascading decorators. -/
def set_end (c : Clip) (t : ℚ) : Clip :=
  { win := c.win.set_end t
    mask := c.mask.map (Win.set_end · t)
    audio := c.audio.map (Win.set_end · t) }

/-- `Clip.set_duration` (a numeric `t`, `change_end = True`, the only
non-raising case) with its cascading decorators. -/
def set_duration (c : Clip) (t : ℚ) : Clip :=
  { win := c.win.set_duration_ce t
    mask := c.mask.map (Win.set_duration_ce · t)
    audio := c.audio.map (Win.set_duration_ce · t) }

end Clip

/-! ## AudioClip constructions (`src/moviepy/audio/AudioClip.py`) -/

/-- `AudioArrayClip` data: the stored sound `array` (one `List ℚ` row of
channel values per sample index) and the playback `fps`. -/
structure AudioArrayClip where
  array : List (List ℚ)
  fps : ℕ
deriving DecidableEq, Repr

namespace AudioArrayClip

/-- Scalar branch of `AudioArrayClip.make_frame`
(src/moviepy/audio/AudioClip.py:249-254): `i = int(self.fps * t)`; if
`i < 0 or i >= len(self.array)` return `0*self.array[0]` (a zero row of the
same width as row 0), else return `self.array[i]`. -/
def make_frame (c : AudioArrayClip) (t : ℚ) : List ℚ :=
  let i := pyint ((c.fps : ℚ) * t)
  if i < 0 ∨ (c.array.length : ℤ) ≤ i then
    (c.array.headD []).map (fun x => 0 * x)
  else
    c.array.getD i.toNat []

/-- Vector branch of `AudioArrayClip.make_frame`
(src/moviepy/audio/AudioClip.py:243-248): `array_inds = (fps*t).astype(int)`;
`in_array = (array_inds > 0) & (array_inds < len(array))`;
`result = np.zeros((len(t), 2))` and the rows selected by `in_array` are
filled from `array` (note the strict `> 0`, and the two-column zeros). -/
def make_frame_vec (c : AudioArrayClip) (ts : List ℚ) : List (List ℚ) :=
  ts.map fun t =>
    let i := pyint ((c.fps : ℚ) * t)
    if 0 < i ∧ i < (c.array.length : ℤ) then
      c.array.getD i.toNat []
    else
      List.replicate 2 0

end AudioArrayClip

/-- The fields of one child of a `CompositeAudioClip` that its constructor
reads: the child's `fin` and `nchannels`. -/
structure ACChild where
  fin : Option ℚ
  nchannels : ℕ
deriving DecidableEq, Repr

/-- `CompositeAudioClip.__init__` (src/moviepy/audio/AudioClip.py:276-285),
window part: `ends = [c.fin for c in clips]`; when no end is `None`, both
`duracion` and `fin` are set to `max(ends)`, otherwise they keep the `None`
from `Clip.__init__`.  Returns the pair `(duracion, fin)`. -/
def compositeInit (clips : List ACChild) : Option ℚ × Option ℚ :=
  let ends := clips.map (·.fin)
  if ends.all (·.isSome) then
    let m := pymax (ends.filterMap id)
    (some m, some m)
  else
    (none, none)

/-! ## The buffered audio reader (`src/moviepy/audio/io/readers.py`)

State of `FFMPEG_AudioReader`.  `pos` is the decoder cursor: the index of
the next sample the external ffmpeg process will yield.  The decoder output
is modelled by the ideal stream `source` (the process, respawned by
`initialize(t)` at the sample `round(fps*t)` and advanced by
`skip_chunk`/`read_chunk`, always yields `source pos` next; `ffmpeg_parse_infos`
and the process plumbing live outside `src/`, so the handshake result
`duracion` is a constructor parameter and the stream is taken as exact). -/
structure AReader where
  fps : ℕ
  nchannels : ℕ
  nframes : ℕ
  buffersize : ℕ
  source : ℕ → List ℚ
  pos : ℕ
  buffer : Option (List (List ℚ))
  buffer_iniciaframe : ℕ

namespace AReader

/-- `FFMPEG_AudioReader.read_chunk` (src/moviepy/audio/io/readers.py:116-126):
reads `chunksize` samples `source pos, …, source (pos+chunksize-1)` from the
decoder stream (bytes `fromstring`-decoded, reshaped to
`(chunksize, nchannels)` and rescaled) and advances `pos` by `chunksize`. -/
def read_chunk (r : AReader) (chunksize : ℕ) : List (List ℚ) × AReader :=
  ((List.range chunksize).map (fun i => r.source (r.pos + i)),
   { r with pos := r.pos + chunksize })

/-- `FFMPEG_AudioReader.seek` (src/moviepy/audio/io/readers.py:130-145):
when `pos < self.pos` or `pos > self.pos + 1000000`, respawn the decoder at
`pos/fps` seconds (`initialize`, which repositions the stream and sets
`self.pos = round(fps*(pos/fps)) = pos`); when `self.pos < pos ≤
self.pos+1000000`, `skip_chunk(pos - self.pos)` reads and drops the
intervening samples; finally `self.pos = pos` in every case.  On the ideal
stream every branch leaves the cursor at `pos`. -/
def seek (r : AReader) (p : ℕ) : AReader :=
  if p < r.pos ∨ r.pos + 1000000 < p then
    { r with pos := p }
  else if r.pos < p then
    { r with pos := p }
  else
    { r with pos := p }

/-- `FFMPEG_AudioReader.buffer_around`
(src/moviepy/audio/io/readers.py:209-236).
`new_bufferinicia = max(0, framenumber - buffersize//2)` (truncated `ℕ`
subtraction).  With a live buffer, when
`new_bufferinicia < current_f_end < new_bufferinicia + buffersize` (with
`current_f_end = buffer_iniciaframe + buffersize`) the source keeps
`conserved = current_f_end - new_bufferinicia + 1` trailing samples
(`self.buffer[-conserved:]`, i.e. `drop (len - conserved)`) and reads only
`buffersize - conserved` new ones; otherwise (and when the buffer is still
`None`) it seeks to `new_bufferinicia` and reads a full window.  In both
cases `buffer_iniciaframe := new_bufferinicia`. -/
def buffer_around (r : AReader) (framenumber : ℕ) : AReader :=
  let nb := framenumber - r.buffersize / 2
  match r.buffer with
  | some buf =>
    let cfe := r.buffer_iniciaframe + r.buffersize
    if nb < cfe ∧ cfe < nb + r.buffersize then
      let conserved := cfe - nb + 1
      let chunksize := r.buffersize - conserved
      let res := r.read_chunk chunksize
      { res.2 with
        buffer := some (buf.drop (buf.length - conserved) ++ res.1)
        buffer_iniciaframe := nb }
    else
      let res := (r.seek nb).read_chunk r.buffersize
      { res.2 with buffer := some res.1, buffer_iniciaframe := nb }
  | none =>
    let res := (r.seek nb).read_chunk r.buffersize
    { res.2 with buffer := some res.1, buffer_iniciaframe := nb }

/-- The in-window test of `FFMPEG_AudioReader.get_frame`
(src/moviepy/audio/io/readers.py:201):
`0 <= (ind - self.buffer_iniciaframe) < len(self.buffer)` for an `ind ≥ 0`. -/
def inWindow (r : AReader) (ind : ℕ) : Bool :=
  decide (r.buffer_iniciaframe ≤ ind) &&
    decide (ind < r.buffer_iniciaframe + (r.buffer.getD []).length)

/-- Scalar branch of `FFMPEG_AudioReader.get_frame`
(src/moviepy/audio/io/readers.py:195-206): `ind = int(self.fps * tt)`; if
`ind < 0 or ind > self.nframes` return `np.zeros(self.nchannels)` leaving
the state untouched; else re-center with `buffer_around(ind)` when `ind` is
outside the current window, and return `self.buffer[ind -
self.buffer_iniciaframe]`.  Returns the sample and the final state. -/
def get_frame (r : AReader) (tt : ℚ) : List ℚ × AReader :=
  let ind := pyint ((r.fps : ℚ) * tt)
  if ind < 0 ∨ (r.nframes : ℤ) < ind then
    (List.replicate r.nchannels 0, r)
  else
    let i := ind.toNat
    let r2 := if r.inWindow i then r else r.buffer_around i
    ((r2.buffer.getD []).getD (i - r2.buffer_iniciaframe) [], r2)

/-- `FFMPEG_AudioReader.__init__` (src/moviepy/audio/io/readers.py:47-70):
`nframes = int(fps * duracion)`, `buffersize = min(nframes+1, buffersize)`,
`buffer = None`, `buffer_iniciaframe = 1`, then `initialize()` (spawn at
time 0, `pos = 0`) and `buffer_around(1)`. -/
def construct (source : ℕ → List ℚ) (fps : ℕ) (duracion : ℚ) (buffersize : ℕ)
    (nchannels : ℕ) : AReader :=
  let nframes := (pyint ((fps : ℚ) * duracion)).toNat
  let r0 : AReader :=
    { fps := fps, nchannels := nchannels, nframes := nframes
      buffersize := min (nframes + 1) buffersize
      source := source, pos := 0, buffer := none, buffer_iniciaframe := 1 }
  r0.buffer_around 1

/-- The window of source samples `[a, a + n)`. -/
def srcWindow (source : ℕ → List ℚ) (a n : ℕ) : List (List ℚ) :=
  (List.range n).map (fun i => source (a + i))

end AReader

/-- The identity-tagged test stream: sample `i` is the single-channel row
`[i]`, so distinct indices carry distinct samples. -/
def srcId : ℕ → List ℚ := fun i => [(i : ℚ)]

/-! ## Helper lemmas on `foldl max` (for the Python `max(lst)` model) -/

theorem le_foldl_max (l : List ℚ) (a : ℚ) : a ≤ l.foldl max a := by
  induction l generalizing a with
  | nil => exact le_refl a
  | cons x xs ih => exact le_trans (le_max_left a x) (ih (max a x))

theorem foldl_max_le_of_mem (l : List ℚ) (a x : ℚ) (hx : x ∈ l) :
    x ≤ l.foldl max a := by
  induction l generalizing a with
  | nil => cases hx
  | cons y ys ih =>
    rcases List.mem_cons.mp hx with h | h
    · subst h
      exact le_trans (le_max_right a x) (le_foldl_max ys (max a x))
    · exact ih (max a y) h

theorem foldl_max_mem (l : List ℚ) (a : ℚ) :
    l.foldl max a = a ∨ l.foldl max a ∈ l := by
  induction l generalizing a with
  | nil => exact Or.inl rfl
  | cons x xs ih =>
    rcases ih (max a x) with h | h
    · rcases max_cases a x with ⟨hm, _⟩ | ⟨hm, _⟩
      · exact Or.inl (h.trans hm)
      · exact Or.inr (List.mem_cons.mpr (Or.inl (h.trans hm)))
    · exact Or.inr (List.mem_cons.mpr (Or.inr h))

theorem pymax_mem (l : List ℚ) (hl : l ≠ []) : pymax l ∈ l := by
  rcases l with _ | ⟨x, xs⟩
  · exact absurd rfl hl
  · rcases foldl_max_mem (x :: xs) ((x :: xs).headD 0) with h | h
    · simpa [pymax] using Or.inl h
    · simpa [pymax] using h

theorem le_pymax_of_mem (l : List ℚ) (x : ℚ) (hx : x ∈ l) : x ≤ pymax l :=
  foldl_max_le_of_mem l _ x hx

/-! ## Claims -/

/-- C2: the half-open-window claim fails on the vectorized path of
`Clip.is_playing`.  On the clip `inicia = 0`, `fin = 2`, the vector
`[1, 2]` intersects the window, and the code returns `[1, 1]`: the entry at
`t = fin` is `1` (the code multiplies by `t <= self.fin`), although the
scalar path of the very same method returns `false` at `t = fin` and its
own all-outside short-circuit (`tmin >= self.fin`) classifies the vector
`[2, 2]` as entirely outside.  The claim (entry `1` exactly on
`inicia ≤ t_i < fin`, so an entry equal to `fin` yields `0`) is what the
scalar path implements; the vectorized comparison contradicts it. -/
theorem C2_is_playing_fin_boundary_bug :
    Win.is_playing_vec ⟨0, some 2, some 2⟩ [1, 2] = some [1, 1] ∧
    Win.is_playing ⟨0, some 2, some 2⟩ 2 = false ∧
    Win.is_playing_vec ⟨0, some 2, some 2⟩ [2, 2] = none := by
  exact ⟨by decide, by decide, by decide⟩

/-- C4: `Clip.subclip` on a clip with `duracion = None` and a negative
`t_end` does not raise: the source only *prints* an error message
(src/moviepy/Clip.py:397-398) and then falls through to the
`t_end is not None` branch, returning a clip with the negative `t_end`
taken literally: `subclip(0, -2)` yields `duracion = -2`, `fin = -2`. -/
theorem C4_subclip_negative_end_returns_clip :
    Win.subclip ⟨0, none, none⟩ 0 (some (-2)) =
      Except.ok ⟨0, some (-2), some (-2)⟩ := by
  simp [Win.subclip, Win.fl]

/-- C5: duration resolution of `Clip.subclip` on a clip of known duration
`D` with `0 ≤ t_inicia < D`: the resolved end `e` is `t_end` when
`0 ≤ t_end ≤ D`, `D + t_end` when `t_end < 0`, and `D` when `t_end` is
omitted; the result has `duracion = e - t_inicia` and
`fin = inicia + duracion`; and `subclip(0, -k)` equals `subclip(0, D - k)`
for `0 < k ≤ D`. -/
theorem C5_subclip_duration_resolution (w : Win) (D a : ℚ)
    (hD : w.duracion = some D) (ha0 : 0 ≤ a) (haD : a < D) :
    (∀ e : ℚ, 0 ≤ e → e ≤ D →
        w.subclip a (some e) =
          Except.ok ⟨w.inicia, some (w.inicia + (e - a)), some (e - a)⟩) ∧
    (∀ e : ℚ, e < 0 →
        w.subclip a (some e) =
          Except.ok ⟨w.inicia, some (w.inicia + (D + e - a)),
                     some (D + e - a)⟩) ∧
    (w.subclip a none =
        Except.ok ⟨w.inicia, some (w.inicia + (D - a)), some (D - a)⟩) ∧
    (∀ k : ℚ, 0 < k → k ≤ D →
        w.subclip 0 (some (-k)) = w.subclip 0 (some (D - k))) := by
  have hguard : ¬ D < a := not_lt.mpr haD.le
  refine ⟨?_, ?_, ?_, ?_⟩
  · intro e he0 heD
    simp [Win.subclip, hD, hguard, not_lt.mpr he0, Win.fl]
  · intro e he
    simp [Win.subclip, hD, hguard, he, Win.fl]
  · simp [Win.subclip, hD, hguard, Win.fl]
  · intro k hk0 hkD
    have hD0 : ¬ D < 0 := not_lt.mpr (ha0.trans haD.le)
    have hneg : (-k : ℚ) < 0 := neg_neg_iff_pos.mpr hk0
    have hpos : ¬ (D - k : ℚ) < 0 := not_lt.mpr (sub_nonneg.mpr hkD)
    simp [Win.subclip, hD, hD0, hneg, hpos, Win.fl]
    ring_nf

/-- Witness for C5: on the window `inicia = 5`, `fin = 20`, `duracion = 10`,
`subclip(2, 5)` yields `duracion = 5 - 2` and `fin = 5 + (5 - 2)`. -/
theorem C5_subclip_duration_resolution_witness :
    Win.subclip ⟨5, some 20, some 10⟩ 2 (some 5) =
      Except.ok ⟨5, some (5 + ((5 : ℚ) - 2)), some ((5 : ℚ) - 2)⟩ :=
  (C5_subclip_duration_resolution ⟨5, some 20, some 10⟩ 10 2 rfl
      (by norm_num) (by norm_num)).1 5 (by norm_num) (by norm_num)

/-- C7: window framing of `Clip.fl`.  With `keep_duration = True` the
returned clip keeps `inicia`, `fin` and `duracion` exactly; with
`keep_duration = False` it clears `duracion` and `fin` to `None` and
changes no other window field. -/
theorem C7_fl_window_framing (c : Clip) (apply_to : ApplyTo) :
    ((c.fl apply_to true).win.inicia = c.win.inicia ∧
     (c.fl apply_to true).win.fin = c.win.fin ∧
     (c.fl apply_to true).win.duracion = c.win.duracion) ∧
    ((c.fl apply_to false).win.inicia = c.win.inicia ∧
     (c.fl apply_to false).win.fin = none ∧
     (c.fl apply_to false).win.duracion = none) := by
  constructor <;> refine ⟨?_, ?_, ?_⟩ <;> simp [Clip.fl, Win.fl]

/-- C8: each setter returns a clip satisfying
`duracion = fin - inicia` whenever both `fin` and `duracion` are set
(`Win.consistent`), the third field being derived from the two updated
ones, and cascades the very same window edit to the `mask` and `audio`
sub-clips when present (the original record is untouched: the embedded
setters are pure, as the `@outplace` copy makes them). -/
theorem win_set_inicia_consistent (w : Win) (t : ℚ) (ce : Bool) :
    (w.set_inicia t ce).consistent = true := by
  obtain ⟨i, f, d⟩ := w
  rcases d with _ | d <;> rcases f with _ | f <;> rcases ce <;>
    (unfold Win.set_inicia Win.consistent) <;> simp

theorem win_set_end_consistent (w : Win) (t : ℚ) :
    (w.set_end t).consistent = true := by
  obtain ⟨i, f, d⟩ := w
  simp [Win.set_end, Win.consistent]

theorem win_set_duration_ce_consistent (w : Win) (t : ℚ) :
    (w.set_duration_ce t).consistent = true := by
  obtain ⟨i, f, d⟩ := w
  simp [Win.set_duration_ce, Win.consistent]

theorem C8_setters_window_consistency (c : Clip) (t : ℚ) :
    (Win.consistent (c.set_inicia t true).win = true ∧
     (c.set_inicia t true).mask = c.mask.map (Win.set_inicia · t true) ∧
     (c.set_inicia t true).audio = c.audio.map (Win.set_inicia · t true)) ∧
    (Win.consistent (c.set_inicia t false).win = true ∧
     (c.set_inicia t false).mask = c.mask.map (Win.set_inicia · t false) ∧
     (c.set_inicia t false).audio = c.audio.map (Win.set_inicia · t false)) ∧
    (Win.consistent (c.set_end t).win = true ∧
     (c.set_end t).mask = c.mask.map (Win.set_end · t) ∧
     (c.set_end t).audio = c.audio.map (Win.set_end · t)) ∧
    (Win.consistent (c.set_duration t).win = true ∧
     (c.set_duration t).mask = c.mask.map (Win.set_duration_ce · t) ∧
     (c.set_duration t).audio = c.audio.map (Win.set_duration_ce · t)) := by
  exact ⟨⟨win_set_inicia_consistent c.win t true, rfl, rfl⟩,
         ⟨win_set_inicia_consistent c.win t false, rfl, rfl⟩,
         ⟨win_set_end_consistent c.win t, rfl, rfl⟩,
         ⟨win_set_duration_ce_consistent c.win t, rfl, rfl⟩⟩

/-- C9: duration of `CompositeAudioClip`.  If every child has a
non-`None` `fin`, the composite's `duracion` and `fin` are both the maximum
of the children's `fin` values (an attained upper bound); if any child's
`fin` is `None`, both stay `None`.  (`clips` must be nonempty: the
constructor's `max` calls raise on an empty list.) -/
theorem C9_composite_duration (clips : List ACChild) (hne : clips ≠ []) :
    ((∀ c ∈ clips, c.fin.isSome) →
      ∃ m : ℚ, compositeInit clips = (some m, some m) ∧
        (∃ c ∈ clips, c.fin = some m) ∧
        (∀ c ∈ clips, ∀ f : ℚ, c.fin = some f → f ≤ m)) ∧
    ((∃ c ∈ clips, c.fin = none) → compositeInit clips = (none, none)) := by
  constructor
  · intro hall
    have hallmap : ∀ e ∈ clips.map (·.fin), e.isSome := by
      intro e he
      rcases List.mem_map.mp he with ⟨c, hc, rfl⟩
      exact hall c hc
    refine ⟨pymax ((clips.map (·.fin)).filterMap id), ?_, ?_, ?_⟩
    · unfold compositeInit
      rw [if_pos (List.all_eq_true.mpr (fun e he => hallmap e he))]
    · have hne2 : (clips.map (·.fin)).filterMap id ≠ [] := by
        rcases clips with _ | ⟨c, cs⟩
        · exact absurd rfl hne
        · have := hall c (List.mem_cons_self c cs)
          rcases hc : c.fin with _ | f
          · rw [hc] at this; cases this
          · simp [List.filterMap, hc]
      have hmem := pymax_mem _ hne2
      rcases List.mem_filterMap.mp hmem with ⟨e, he, hid⟩
      rcases List.mem_map.mp he with ⟨c, hc, rfl⟩
      exact ⟨c, hc, hid⟩
    · intro c hc f hf
      refine le_pymax_of_mem _ f (List.mem_filterMap.mpr ⟨some f, ?_, rfl⟩)
      exact List.mem_map.mpr ⟨c, hc, hf⟩
  · intro ⟨c, hc, hcfin⟩
    unfold compositeInit
    rw [if_neg]
    intro hall
    have := List.all_eq_true.mp hall (c.fin) (List.mem_map.mpr ⟨c, hc, rfl⟩)
    rw [hcfin] at this
    cases this

/-- Witness for C9: a composite of a child ending at `3` and an unbounded
child has `duracion = None` and `fin = None`. -/
theorem C9_composite_duration_witness :
    compositeInit [⟨some 3, 2⟩, ⟨none, 1⟩] = (none, none) :=
  (C9_composite_duration [⟨some 3, 2⟩, ⟨none, 1⟩] (by decide)).2
    ⟨⟨none, 1⟩, by decide, rfl⟩

/-- C10: scalar/vector boundary asymmetry of `AudioArrayClip.make_frame`.
The scalar path returns `array[i]` for every index `0 ≤ i < len(array)`
(including `i = 0`), but the vectorized path only fills indices with
`0 < i < len(array)` (`in_array = (array_inds > 0) & ...`), so a vector
entry whose sample index is `0` yields the all-zero row. -/
theorem C10_array_clip_scalar_vector_asymmetry (c : AudioArrayClip) :
    (∀ t : ℚ, 0 ≤ pyint ((c.fps : ℚ) * t) →
        pyint ((c.fps : ℚ) * t) < (c.array.length : ℤ) →
        c.make_frame t = c.array.getD (pyint ((c.fps : ℚ) * t)).toNat []) ∧
    (∀ (ts : List ℚ) (k : ℕ) (t : ℚ), ts.get? k = some t →
        (pyint ((c.fps : ℚ) * t) = 0 →
          (c.make_frame_vec ts).get? k = some (List.replicate 2 0)) ∧
        (0 < pyint ((c.fps : ℚ) * t) →
          pyint ((c.fps : ℚ) * t) < (c.array.length : ℤ) →
          (c.make_frame_vec ts).get? k =
            some (c.array.getD (pyint ((c.fps : ℚ) * t)).toNat []))) := by
  constructor
  · intro t h0 hlen
    unfold AudioArrayClip.make_frame
    rw [if_neg]
    push_neg
    exact ⟨h0, hlen⟩
  · intro ts k t hk
    have hmap : (c.make_frame_vec ts).get? k =
        some (if 0 < pyint ((c.fps : ℚ) * t) ∧
                 pyint ((c.fps : ℚ) * t) < (c.array.length : ℤ) then
                c.array.getD (pyint ((c.fps : ℚ) * t)).toNat []
              else List.replicate 2 0) := by
      unfold AudioArrayClip.make_frame_vec
      rw [List.get?_map, hk]
      rfl
    constructor
    · intro h0
      rw [hmap, if_neg]
      intro h
      rw [h0] at h
      exact lt_irrefl 0 h.1
    · intro h0 hlen
      rw [hmap, if_pos ⟨h0, hlen⟩]

/-- Witness for C10: on a two-sample stereo array at `fps = 1`, the scalar
read at `t = 0` returns row `0` of the array. -/
theorem C10_array_clip_scalar_vector_asymmetry_witness :
    AudioArrayClip.make_frame ⟨[[1, 1], [2, 2]], 1⟩ 0 =
      ([[1, 1], [2, 2]] : List (List ℚ)).getD
        (pyint ((1 : ℚ) * 0)).toNat [] :=
  (C10_array_clip_scalar_vector_asymmetry ⟨[[1, 1], [2, 2]], 1⟩).1 0
    (by norm_num [pyint]) (by norm_num [pyint])

/-! ## Concrete reader runs

`reader46` is the reader constructed on the identity stream with
`fps = 1`, `duracion = 6` (so `nframes = 6`) and `buffersize = 4`;
`reader56` the one with `duracion = 5` and `buffersize = 6` (so
`nframes = 5`, `buffersize = min(5+1, 6) = 6`).  The lemmas below evaluate
the embedded reader on them step by step. -/

theorem reader46_construct_eq :
    AReader.construct srcId 1 6 4 1 =
      { fps := 1, nchannels := 1, nframes := 6, buffersize := 4,
        source := srcId, pos := 4,
        buffer := some [[0], [1], [2], [3]], buffer_iniciaframe := 0 } := by
  have h6 : pyint ((1 : ℕ) * (6 : ℚ)) = 6 := by norm_num [pyint]
  have h7 : Int.toNat 6 = 6 := rfl
  simp only [AReader.construct, h6, h7]
  norm_num [AReader.buffer_around, AReader.read_chunk, AReader.seek, srcId,
            List.range_succ]

theorem reader46_recenter4_eq :
    AReader.buffer_around
      { fps := 1, nchannels := 1, nframes := 6, buffersize := 4,
        source := srcId, pos := 4,
        buffer := some [[0], [1], [2], [3]], buffer_iniciaframe := 0 } 4 =
      { fps := 1, nchannels := 1, nframes := 6, buffersize := 4,
        source := srcId, pos := 5,
        buffer := some [[1], [2], [3], [4]], buffer_iniciaframe := 2 } := by
  norm_num [AReader.buffer_around, AReader.read_chunk, AReader.seek, srcId,
            List.range_succ]

theorem srcWindow_id_two_four :
    AReader.srcWindow srcId 2 4 = [[2], [3], [4], [5]] := by
  norm_num [AReader.srcWindow, srcId, List.range_succ]

theorem reader46_read3_eq :
    AReader.get_frame
      { fps := 1, nchannels := 1, nframes := 6, buffersize := 4,
        source := srcId, pos := 4,
        buffer := some [[0], [1], [2], [3]], buffer_iniciaframe := 0 } 3 =
    ([3],
      { fps := 1, nchannels := 1, nframes := 6, buffersize := 4,
        source := srcId, pos := 4,
        buffer := some [[0], [1], [2], [3]], buffer_iniciaframe := 0 }) := by
  have hp : pyint (3 : ℚ) = 3 := by norm_num [pyint]
  have ht : Int.toNat 3 = 3 := rfl
  norm_num [AReader.get_frame, AReader.inWindow, hp, ht]

theorem reader46_read4_eq :
    AReader.get_frame
      { fps := 1, nchannels := 1, nframes := 6, buffersize := 4,
        source := srcId, pos := 4,
        buffer := some [[0], [1], [2], [3]], buffer_iniciaframe := 0 } 4 =
    ([3],
      { fps := 1, nchannels := 1, nframes := 6, buffersize := 4,
        source := srcId, pos := 5,
        buffer := some [[1], [2], [3], [4]], buffer_iniciaframe := 2 }) := by
  have hp : pyint (4 : ℚ) = 4 := by norm_num [pyint]
  have ht : Int.toNat 4 = 4 := rfl
  norm_num [AReader.get_frame, AReader.inWindow, hp, ht, reader46_recenter4_eq]

theorem reader46_shifted_read3_eq :
    AReader.get_frame
      { fps := 1, nchannels := 1, nframes := 6, buffersize := 4,
        source := srcId, pos := 5,
        buffer := some [[1], [2], [3], [4]], buffer_iniciaframe := 2 } 3 =
    ([2],
      { fps := 1, nchannels := 1, nframes := 6, buffersize := 4,
        source := srcId, pos := 5,
        buffer := some [[1], [2], [3], [4]], buffer_iniciaframe := 2 }) := by
  have hp : pyint (3 : ℚ) = 3 := by norm_num [pyint]
  have ht : Int.toNat 3 = 3 := rfl
  norm_num [AReader.get_frame, AReader.inWindow, hp, ht]

theorem reader56_construct_eq :
    AReader.construct srcId 1 5 6 1 =
      { fps := 1, nchannels := 1, nframes := 5, buffersize := 6,
        source := srcId, pos := 6,
        buffer := some [[0], [1], [2], [3], [4], [5]],
        buffer_iniciaframe := 0 } := by
  have h5 : pyint ((1 : ℕ) * (5 : ℚ)) = 5 := by norm_num [pyint]
  have h7 : Int.toNat 5 = 5 := rfl
  simp only [AReader.construct, h5, h7]
  norm_num [AReader.buffer_around, AReader.read_chunk, AReader.seek, srcId,
            List.range_succ]

theorem reader56_read5_eq :
    AReader.get_frame
      { fps := 1, nchannels := 1, nframes := 5, buffersize := 6,
        source := srcId, pos := 6,
        buffer := some [[0], [1], [2], [3], [4], [5]],
        buffer_iniciaframe := 0 } 5 =
    ([5],
      { fps := 1, nchannels := 1, nframes := 5, buffersize := 6,
        source := srcId, pos := 6,
        buffer := some [[0], [1], [2], [3], [4], [5]],
        buffer_iniciaframe := 0 }) := by
  have hp : pyint (5 : ℚ) = 5 := by norm_num [pyint]
  have ht : Int.toNat 5 = 5 := rfl
  norm_num [AReader.get_frame, AReader.inWindow, hp, ht]

/-- C1: the overlap-reuse branch of `buffer_around` breaks the window
invariant.  On `reader46` (freshly constructed: buffer = source samples
`[0, 4)`, `buffer_iniciaframe = 0`, decoder cursor `pos = 4`),
`buffer_around(4)` computes `new_bufferinicia = 2` and takes the overlap
branch, but `conserved = current_f_end - new_bufferinicia + 1 = 3` keeps
one sample too many and the single sequential read fetches only
`buffersize - conserved = 1` sample instead of the
`buffersize - overlapSize = 2` missing ones, so the new buffer holds the
source samples `[1, 5)` — shifted one left of the window
`[buffer_iniciaframe, buffer_iniciaframe + 4) = [2, 6)` the claim (and
`get_frame`'s own indexing) require. -/
theorem C1_buffer_around_overlap_off_by_one :
    (AReader.construct srcId 1 6 4 1).buffer =
        some (AReader.srcWindow srcId 0 4) ∧
    ((AReader.construct srcId 1 6 4 1).buffer_around 4).buffer_iniciaframe
        = 2 ∧
    ((AReader.construct srcId 1 6 4 1).buffer_around 4).buffer =
        some (AReader.srcWindow srcId 1 4) ∧
    ((AReader.construct srcId 1 6 4 1).buffer_around 4).buffer ≠
        some (AReader.srcWindow srcId 2 4) := by
  rw [reader46_construct_eq, reader46_recenter4_eq]
  refine ⟨?_, rfl, ?_, ?_⟩
  · norm_num [AReader.srcWindow, srcId, List.range_succ]
  · norm_num [AReader.srcWindow, srcId, List.range_succ]
  · rw [srcWindow_id_two_four]
    simp

/-- C3: `get_frame` is not deterministic across re-centerings.  On
`reader46`, `get_frame(3)` first returns source sample `3`; `get_frame(4)`
then triggers the off-by-one overlap re-center of `buffer_around`
(see `C1`), after which `get_frame(3)` — same `t`, same sample index —
returns source sample `2`. -/
theorem C3_get_frame_not_deterministic :
    ((AReader.construct srcId 1 6 4 1).get_frame 3).1 = [3] ∧
    ((((AReader.construct srcId 1 6 4 1).get_frame 3).2.get_frame
        4).2.get_frame 3).1 = [2] ∧
    ((AReader.construct srcId 1 6 4 1).get_frame 3).1 ≠
      ((((AReader.construct srcId 1 6 4 1).get_frame 3).2.get_frame
          4).2.get_frame 3).1 := by
  simp only [reader46_construct_eq, reader46_read3_eq, reader46_read4_eq,
             reader46_shifted_read3_eq]
  norm_num

/-- C6, counterexample: on `reader56` the scalar index `5` *is* the
boundary `ind = nframes`, yet `get_frame` does not return the all-zero
sample the claim demands — the source's guard is `ind > self.nframes`, not
`ind >= self.nframes`, so index `nframes` is served from the buffer
(here: source sample `5 ≠ 0`). -/
theorem C6_nframes_boundary_counterexample :
    pyint (((AReader.construct srcId 1 5 6 1).fps : ℚ) * 5) =
      ((AReader.construct srcId 1 5 6 1).nframes : ℤ) ∧
    ((AReader.construct srcId 1 5 6 1).get_frame 5).1 ≠
      List.replicate (AReader.construct srcId 1 5 6 1).nchannels 0 := by
  simp only [reader56_construct_eq, reader56_read5_eq]
  constructor
  · norm_num [pyint]
  · simp

/-- C6, amended: out-of-range means `ind < 0` or `ind > nframes` (the
boundary `ind = nframes` is in range).  For an out-of-range index the
scalar `get_frame` returns the all-zero sample of `nchannels` entries and
leaves the reader (hence the buffer window) unchanged; for
`0 ≤ ind ≤ nframes` it performs at most one re-center — none when `ind`
is already in the window — and returns
`buffer[ind - buffer_iniciaframe]` of the resulting state. -/
theorem C6_scalar_read_amended (r : AReader) (tt : ℚ) :
    (pyint ((r.fps : ℚ) * tt) < 0 ∨
        (r.nframes : ℤ) < pyint ((r.fps : ℚ) * tt) →
      r.get_frame tt = (List.replicate r.nchannels 0, r)) ∧
    (0 ≤ pyint ((r.fps : ℚ) * tt) →
     pyint ((r.fps : ℚ) * tt) ≤ (r.nframes : ℤ) →
      (((r.get_frame tt).2 = r ∧
          r.inWindow (pyint ((r.fps : ℚ) * tt)).toNat = true) ∨
       ((r.get_frame tt).2 =
            r.buffer_around (pyint ((r.fps : ℚ) * tt)).toNat ∧
          r.inWindow (pyint ((r.fps : ℚ) * tt)).toNat = false)) ∧
      (r.get_frame tt).1 =
        ((r.get_frame tt).2.buffer.getD []).getD
          ((pyint ((r.fps : ℚ) * tt)).toNat -
            (r.get_frame tt).2.buffer_iniciaframe) []) := by
  constructor
  · intro h
    unfold AReader.get_frame
    rw [if_pos h]
  · intro h0 h1
    have hcond : ¬ (pyint ((r.fps : ℚ) * tt) < 0 ∨
        (r.nframes : ℤ) < pyint ((r.fps : ℚ) * tt)) :=
      not_or.mpr ⟨not_lt.mpr h0, not_lt.mpr h1⟩
    by_cases hw : r.inWindow (pyint ((r.fps : ℚ) * tt)).toNat
    · unfold AReader.get_frame
      rw [if_neg hcond]
      simp [hw]
    · unfold AReader.get_frame
      rw [if_neg hcond]
      simp only [Bool.not_eq_true] at hw
      simp [hw]

/-- Witness for C6: on `reader56` (`nframes = 5`) the read at `t = 7` has
sample index `7 > nframes`, returns the all-zero single-channel sample
and leaves the reader state unchanged. -/
theorem C6_scalar_read_amended_witness :
    (AReader.construct srcId 1 5 6 1).get_frame 7 =
      (List.replicate (AReader.construct srcId 1 5 6 1).nchannels 0,
       AReader.construct srcId 1 5 6 1) :=
  (C6_scalar_read_amended (AReader.construct srcId 1 5 6 1) 7).1
    (Or.inr (by rw [reader56_construct_eq]; norm_num [pyint]))
